import Mathlib

/-!
Verification of the answer-cache and run/submit orchestration subsystem of an
Advent-of-Code 2020 runner (files `aoc/helpers/answer_cache.py` and
`aoc/helpers/puzzle.py`).

Shallow embedding conventions:
* Python byte strings are `List Nat`; the external `hashlib.sha1` digest and
  the `json.dump`/`json.loads` codec are passed in as explicit function
  parameters, since they are library collaborators of the code under study.
* JSON-compatible cache values (`CacheValue = Optional[str | int | dict]`)
  are the inductive `JVal`; Python dicts are association lists with unique
  keys maintained by `oinsert`.
* Raising Python code is embedded with `Option`/`Except`; the constructors of
  `Err` record which Python exception is raised where.
* The `AnswerCache` instance state (`_data`, `_uncommitted_changes`,
  `_file_hash`) is the structure `CacheSt`; the backing file on disk is a
  separate `List Nat` value threaded through the file-touching operations.
-/

namespace Aoc2020

/-- Byte strings (Python `bytes`). -/
abbrev ByteSeq : Type := List Nat

/-- JSON-compatible cache values: `CacheValue = Optional[str | int | dict]`
(file `answer_cache.py`, line 14). -/
inductive JVal : Type where
  | jNull : JVal
  | jStr (s : String) : JVal
  | jInt (n : Int) : JVal
  | jObj (fields : List (String × JVal)) : JVal

open JVal

/-- Python `dict` lookup on an association list (keys are unique). -/
def olookup : List (String × JVal) → String → Option JVal
  | [], _ => none
  | (k, w) :: l, key => if k = key then some w else olookup l key

/-- Python `dict` assignment `d[key] = v`: replace in place, or append a new
binding. -/
def oinsert : List (String × JVal) → String → JVal → List (String × JVal)
  | [], key, v => [(key, v)]
  | (k, w) :: l, key, v => if k = key then (key, v) :: l else (k, w) :: oinsert l key v

/-- Python truthiness of a `CacheValue`: `None`, `""`, `0` and `{}` are falsy. -/
def truthy : JVal → Bool
  | jNull => false
  | jStr s => !s.isEmpty
  | jInt n => n != 0
  | jObj l => !l.isEmpty

/-- Python `repr` of a `CacheValue` (used by `str` on dicts). -/
def pyRepr : JVal → String
  | jNull => "None"
  | jInt n => toString n
  | jStr s => "\x27" ++ s ++ "\x27"
  | jObj l => "\x7b" ++ String.intercalate ", " (reprFields l) ++ "\x7d"
where
  reprFields : List (String × JVal) → List String
    | [] => []
    | (k, w) :: l => ("\x27" ++ k ++ "\x27: " ++ pyRepr w) :: reprFields l

/-- Python `str` of a `CacheValue`, as used for key coercion (`str(key)` in
`AnswerCache.get`/`.set`) and for display keys (`str(answer)`). -/
def pyStr : JVal → String
  | jStr s => s
  | v => pyRepr v

/-- A key as passed to `AnswerCache.get`/`.set` before `str()` coercion.
The repository passes strings and values; both operations coerce with
`str(key)`. -/
inductive Key : Type where
  | kStr (s : String) : Key
  | kVal (v : JVal) : Key

/-- The `str()` coercion applied to every key by both `get` and `set`. -/
def keyStr : Key → String
  | .kStr s => s
  | .kVal v => pyStr v

/-- `AnswerCache.get` (answer_cache.py lines 78-87) on an open document:
descend `keys[:-1]` with `value.get(str(key), {})`, then
`value.get(str(keys[-1]), default)`.  `none` is a raised exception: an
`IndexError` on an empty key tuple, or an `AttributeError` when a non-dict is
reached. -/
def cget : JVal → List String → JVal → Option JVal
  | _, [], _ => none
  | jObj l, [k], dflt => some ((olookup l k).getD dflt)
  | jObj l, k :: rest, dflt => cget ((olookup l k).getD (jObj [])) rest dflt
  | _, _ :: _, _ => none

/-- `AnswerCache.set` (answer_cache.py lines 89-104) on an open document:
descend `keys[:-1]` with `setdefault(str(key), {})`, then assign at the final
key.  `none` is a raised exception (empty key tuple, or a non-dict met along
the path). -/
def cset : JVal → List String → JVal → Option JVal
  | _, [], _ => none
  | jObj l, [k], v => some (jObj (oinsert l k v))
  | jObj l, k :: rest, v =>
      match olookup l k with
      | some w => (cset w rest v).map (fun w2 => jObj (oinsert l k w2))
      | none => (cset (jObj []) rest v).map (fun w2 => jObj (oinsert l k w2))
  | _, _ :: _, _ => none

/-- The Python exceptions raised by the embedded code. -/
inductive Err : Type where
  | alreadyOpen : Err      -- ValueError "cache is already opened."
  | closedClose : Err      -- ValueError "cache is already closed."
  | closedCommit : Err     -- ValueError "can not commit a closed cache."
  | closedStore : Err         -- ValueError "I/O operation on closed cache."
  | jsonDecode : Err       -- json.JSONDecodeError from json.loads
  | invalidNone : Err      -- ValueError "Can not submit None as an answer!"
  | cookieNotSet : Err     -- CookieNotSet (AOC_SESSION_COOKIE unset)
  | noResponse : Err       -- model artifact: the response oracle ran dry
  | attrError : Err        -- AttributeError (.get / .groupdict on a non-dict / None)
  | typeError : Err        -- TypeError (item assignment on a non-dict)
deriving DecidableEq

/-- Warnings emitted through `warnings.warn`. -/
inductive CWarn : Type where
  | staleWrite : CWarn       -- "cache file changed on disk after opening; ..."
  | uncommittedLost : CWarn  -- "Closing a cache with uncommitted changes. ..."
deriving DecidableEq

/-- The mutable fields of an `AnswerCache` instance: `_data`,
`_uncommitted_changes` and `_file_hash` (answer_cache.py lines 37-39). -/
structure CacheSt : Type where
  data : Option JVal
  dirty : Bool
  fileHash : Option ByteSeq

/-- The state `__init__` leaves behind (`_data = None`,
`_uncommitted_changes = False`, `_file_hash = None`). -/
def initCacheSt : CacheSt := ⟨none, false, none⟩

/-- `AnswerCacheSingleton.__call__` (answer_cache.py lines 17-25): one live
instance per solution-directory path, held in a process-wide registry. -/
def alookup : List (String × CacheSt) → String → Option CacheSt
  | [], _ => none
  | (k, st) :: l, key => if k = key then some st else alookup l key

/-- Requesting `AnswerCache(path)`: return the registered instance for the
path, or register `fresh` (the result of `__init__`) for it. -/
def getInstance (reg : List (String × CacheSt)) (path : String) (fresh : CacheSt) :
    CacheSt × List (String × CacheSt) :=
  match alookup reg path with
  | some st => (st, reg)
  | none => (fresh, (path, fresh) :: reg)

/-- `AnswerCache.open` (answer_cache.py lines 55-63): fail when already open,
otherwise read the file, parse it as JSON and record the sha1 of the raw
bytes.  `sha1` and the JSON parser `decode` are the external collaborators. -/
def openC (sha1 : ByteSeq → ByteSeq) (decode : ByteSeq → Option JVal)
    (st : CacheSt) (file : ByteSeq) : Except Err CacheSt :=
  match st.data with
  | some _ => .error .alreadyOpen
  | none =>
    match decode file with
    | some d => .ok { data := some d, dirty := st.dirty, fileHash := some (sha1 file) }
    | none => .error .jsonDecode

/-- The body of `AnswerCache.commit` once the store is known open
(answer_cache.py lines 111-119): no-op unless dirty; otherwise warn when the
on-disk hash no longer matches the hash recorded at open time, then write the
whole document (`json.dump`, modelled by `encode`) and clear the dirty flag. -/
def commitCore (sha1 : ByteSeq → ByteSeq) (encode : JVal → ByteSeq) (d : JVal)
    (st : CacheSt) (file : ByteSeq) : CacheSt × ByteSeq × List CWarn :=
  if st.dirty = false then (st, file, [])
  else if some (sha1 file) = st.fileHash then ({ st with dirty := false }, encode d, [])
  else ({ st with dirty := false }, encode d, [CWarn.staleWrite])

/-- `AnswerCache.commit` (answer_cache.py lines 106-119). -/
def commitC (sha1 : ByteSeq → ByteSeq) (encode : JVal → ByteSeq)
    (st : CacheSt) (file : ByteSeq) : Except Err (CacheSt × ByteSeq × List CWarn) :=
  match st.data with
  | none => .error .closedCommit
  | some d => .ok (commitCore sha1 encode d st file)

/-- `AnswerCache.close` (answer_cache.py lines 65-76): fail when already
closed; optionally commit; warn when uncommitted changes remain; drop the
document.  Note that neither `commit` nor `close` resets `_uncommitted_changes`
on the no-commit path. -/
def closeC (sha1 : ByteSeq → ByteSeq) (encode : JVal → ByteSeq) (commit : Bool)
    (st : CacheSt) (file : ByteSeq) : Except Err (CacheSt × ByteSeq × List CWarn) :=
  match st.data with
  | none => .error .closedClose
  | some d =>
    let step := if commit then commitCore sha1 encode d st file else (st, file, [])
    let lost : List CWarn := if step.1.dirty then [CWarn.uncommittedLost] else []
    .ok ({ step.1 with data := none }, step.2.1, step.2.2 ++ lost)

/-- `AnswerCache.__enter__` (answer_cache.py lines 46-48): just `open`. -/
def enterC (sha1 : ByteSeq → ByteSeq) (decode : ByteSeq → Option JVal)
    (st : CacheSt) (file : ByteSeq) : Except Err CacheSt :=
  openC sha1 decode st file

/-- `AnswerCache.__exit__` (answer_cache.py lines 50-53): commit and close on
a clean exit (`all(arg is None for arg in exc_information)`), do nothing at
all when the managed block raised. -/
def exitC (sha1 : ByteSeq → ByteSeq) (encode : JVal → ByteSeq) (excPresent : Bool)
    (st : CacheSt) (file : ByteSeq) : Except Err (CacheSt × ByteSeq × List CWarn) :=
  if excPresent then .ok (st, file, [])
  else closeC sha1 encode true st file

/-- `AnswerCache.get` at the instance level: fail on a closed store, else run
`cget` on the document with `str()`-coerced keys. -/
def csGet (st : CacheSt) (keys : List Key) (dflt : JVal) : Except Err JVal :=
  match st.data with
  | none => .error .closedStore
  | some d =>
    match cget d (keys.map keyStr) dflt with
    | none => .error .attrError
    | some v => .ok v

/-- `AnswerCache.set` at the instance level: fail on a closed store, else run
`cset` on the document with `str()`-coerced keys and mark the store dirty. -/
def csSet (st : CacheSt) (keys : List Key) (v : JVal) : Except Err CacheSt :=
  match st.data with
  | none => .error .closedStore
  | some d =>
    match cset d (keys.map keyStr) v with
    | none => .error .typeError
    | some d2 => .ok { st with data := some d2, dirty := true }

/-! ## Fingerprint and `Puzzle.run` (puzzle.py lines 203-278)

`Puzzle.run` opens the store, reads `["cached_answers", fingerprint]`,
recomputes on a miss (or when the cache is bypassed) and writes both answers
back, and finally looks up the display status of both answers.  The model
works at the level of the JSON document: every `with AnswerCache(...)`
block in `run` re-opens the same singleton instance, commits on exit, and the
JSON codec round-trips the document, so the document state threads through
the whole call.  The optional submission step is modelled separately
(`submitModel` below); `runModel` records which (part, answer) pair would be
handed to it. -/

/-- `Puzzle.puzzle_hash` (puzzle.py lines 203-214):
`sha1(sha1(input).digest() + sha1(solution_bytes).digest())`.  The final
`.hexdigest()` rendering into the key string is the separate parameter `hex`
of `runModel`. -/
def puzzle_hash (sha1 : ByteSeq → ByteSeq) (input solutionBytes : ByteSeq) : ByteSeq :=
  sha1 (sha1 input ++ sha1 solutionBytes)

/-- What one `Puzzle.run` invocation did. -/
structure RunOut : Type where
  invoked : Bool           -- whether the solution module was imported and run
  answerOne : JVal
  answerTwo : JVal
  status1 : JVal           -- display status of answer one
  status2 : JVal           -- display status of answer two
  doc : JVal               -- the cache document after the run
  submits : Option (String × JVal)  -- the (part, answer) handed to submit, if any

/-- `Puzzle.run` (puzzle.py lines 216-278) over the cache document.  The
solution module is the external collaborator: its results are the parameters
`a1`, `a2` (`part_one`/`part_two` applied to this puzzle). -/
def runModel (sha1 : ByteSeq → ByteSeq) (hex : ByteSeq → String)
    (input sol : ByteSeq) (a1 a2 : JVal) (submitF ignoreCache : Bool)
    (doc : JVal) : Except Err RunOut :=
  let fp := hex (puzzle_hash sha1 input sol)
  match cget doc ["cached_answers", fp] jNull with
  | none => .error .attrError
  | some cachedAnswers =>
    let step : Except Err (Bool × JVal × JVal × JVal) :=
      if ignoreCache || !truthy cachedAnswers then
        match cset doc ["cached_answers", fp, "answer_one"] a1 with
        | none => .error .typeError
        | some docA =>
          match cset docA ["cached_answers", fp, "answer_two"] a2 with
          | none => .error .typeError
          | some docB => .ok (true, a1, a2, docB)
      else
        match cachedAnswers with
        | jObj l => .ok (false, (olookup l "answer_one").getD jNull,
                         (olookup l "answer_two").getD jNull, doc)
        | _ => .error .attrError
    match step with
    | .error e => .error e
    | .ok (inv, ans1, ans2, doc2) =>
      match cget doc2 ["cached_submissions", "1", pyStr ans1] (jStr "not submitted"),
            cget doc2 ["cached_submissions", "2", pyStr ans2] (jStr "not submitted") with
      | some s1, some s2 =>
        .ok { invoked := inv, answerOne := ans1, answerTwo := ans2,
              status1 := s1, status2 := s2, doc := doc2,
              submits := if submitF then
                  some (match ans2 with | jNull => ("1", ans1) | _ => ("2", ans2))
                else none }
      | _, _ => .error .attrError

/-- The cached-answer record `{"answer_one": ..., "answer_two": ...}`. -/
def answersRec (a1 a2 : JVal) : JVal :=
  jObj [("answer_one", a1), ("answer_two", a2)]

/-- The document produced by a fresh `run` on an empty cache: both answers
stored under the fingerprint key. -/
def cachedAnswersDoc (fp : String) (a1 a2 : JVal) : JVal :=
  jObj [("cached_answers", jObj [(fp, answersRec a1 a2)])]

/-! ## The submission protocol, `Puzzle.submit` (puzzle.py lines 314-407) -/

/-- Match a literal prefix, returning the remainder of the text. -/
def dropLit : List Char → List Char → Option (List Char)
  | [], cs => some cs
  | _ :: _, [] => none
  | l :: ls, c :: cs => if c = l then dropLit ls cs else none

/-- Python `str.startswith`. -/
def pyStarts (s pre : String) : Bool :=
  (dropLit pre.data s.data).isSome

/-- Decimal value of a digit run. -/
def digitsVal (cs : List Char) : Nat :=
  cs.foldl (fun a c => 10 * a + (c.toNat - 48)) 0

/-- Attempt to match
`WAIT_RE = r"You have (?:(?P<minutes>\d+)m )?(?P<seconds>\d+)s left to wait"`
(puzzle.py line 32) at the head of the text, returning (minutes, seconds)
with the `groupdict(default="0")` convention for a missing minutes group. -/
def matchWaitAt (cs : List Char) : Option (Nat × Nat) :=
  match dropLit "You have ".data cs with
  | none => none
  | some r =>
    let ds1 := r.takeWhile Char.isDigit
    let r1 := r.dropWhile Char.isDigit
    if ds1.isEmpty then none
    else
      match dropLit "m ".data r1 with
      | some r2 =>
        let ds2 := r2.takeWhile Char.isDigit
        let r3 := r2.dropWhile Char.isDigit
        if ds2.isEmpty then none
        else
          match dropLit "s left to wait".data r3 with
          | some _ => some (digitsVal ds1, digitsVal ds2)
          | none => none
      | none =>
        match dropLit "s left to wait".data r1 with
        | some _ => some (0, digitsVal ds1)
        | none => none

/-- `WAIT_RE.search`: first position at which the pattern matches. -/
def searchWait : List Char → Option (Nat × Nat)
  | [] => none
  | c :: cs =>
    match matchWaitAt (c :: cs) with
    | some r => some r
    | none => searchWait cs

/-- Classification of a response body by the fixed prefixes checked in
`Puzzle.submit` (puzzle.py lines 361-390). -/
inductive RespClass : Type where
  | correct : RespClass     -- "That's the right answer"
  | pending : RespClass     -- "You gave an answer too recently"
  | wrong : RespClass       -- "That's not the right answer"
  | wrongLevel : RespClass  -- "You don't seem to be solving the right level."
  | unexpected : RespClass
deriving DecidableEq

def classify (body : String) : RespClass :=
  if pyStarts body "That\x27s the right answer" then .correct
  else if pyStarts body "You gave an answer too recently" then .pending
  else if pyStarts body "That\x27s not the right answer" then .wrong
  else if pyStarts body "You don\x27t seem to be solving the right level." then .wrongLevel
  else .unexpected

/-- The `print` statements of the submission flow
(puzzle.py lines 396-400), one constructor per statement. -/
inductive OutLine : Type where
  | submitted (answer : JVal) (day : Nat) (part : String) : OutLine
      -- "Submitted `{answer}` as the answer of day {day}, part {part}."
  | answerIs (result : String) : OutLine
      -- "The answer is {result}"
  | responseBody (body : String) : OutLine
      -- "Response: {body_text}"

def isRespLine : OutLine → Bool
  | .responseBody _ => true
  | _ => false

/-- Browser interactions (`webbrowser.open`, puzzle.py lines 384 and 407). -/
inductive BEv : Type where
  | answerPage : BEv   -- the submission response url, on the wrong-level branch
  | puzzlePage : BEv   -- the puzzle page, after a correct part-1 answer
deriving DecidableEq

/-- Everything observable about one `Puzzle.submit` invocation. -/
structure SubmitOut : Type where
  result : Option String         -- the `result` variable when the call returns
  netCalls : Nat                 -- number of `requests.post` calls
  sleeps : List Nat              -- arguments of `time.sleep`, in order
  printed : List OutLine
  doc : JVal                     -- the cache document after the call
  browserEvents : List BEv
  cachedEcho : Option JVal       -- the logged classification on the cached path

/-- Early exit of `submit` with no cache write (cached hit excluded):
the `result not in ("correct", "wrong")` return at puzzle.py line 392. -/
def submitAbort (doc : JVal) (result : String) (calls : Nat) (sleeps : List Nat)
    (bevs : List BEv) : Except Err SubmitOut :=
  .ok { result := some result, netCalls := calls, sleeps := sleeps, printed := [],
        doc := doc, browserEvents := bevs, cachedEcho := none }

/-- Tail of `submit` for a terminal `result` ("correct" or "wrong"),
puzzle.py lines 396-407: print the outcome, print the response body when the
*answer* equals the literal string "wrong", record the result in the
submission cache, and open the browser on a correct part-1 answer. -/
def submitFinish (day : Nat) (part : String) (answer : JVal) (doc : JVal)
    (result : String) (lastBody : String) (calls : Nat) (sleeps : List Nat) :
    Except Err SubmitOut :=
  let printed := [OutLine.submitted answer day part, OutLine.answerIs result]
    ++ (match answer with
        | jStr s => if s = "wrong" then [OutLine.responseBody lastBody] else []
        | _ => [])
  match cset doc ["cached_submissions", part, pyStr answer] (jStr result) with
  | none => .error .typeError
  | some doc2 =>
    .ok { result := some result, netCalls := calls, sleeps := sleeps,
          printed := printed, doc := doc2,
          browserEvents := if part = "1" ∧ result = "correct" then [BEv.puzzlePage] else [],
          cachedEcho := none }

/-- Second loop iteration of `submit` (`retry = 2`): a pending response now
exhausts the retries, everything else is classified as in the first
iteration. -/
def submitSecond (day : Nat) (part : String) (answer : JVal) (doc : JVal)
    (w : Nat) (body2 : String) : Except Err SubmitOut :=
  match classify body2 with
  | .correct => submitFinish day part answer doc "correct" body2 2 [w]
  | .wrong => submitFinish day part answer doc "wrong" body2 2 [w]
  | .pending => submitAbort doc "pending" 2 [w] []
  | .wrongLevel => submitAbort doc "failed" 2 [w] [BEv.answerPage]
  | .unexpected => submitAbort doc "failed" 2 [w] []

/-- `Puzzle.submit` (puzzle.py lines 314-407).  The network is the oracle
`responses`: the successive response body texts (`soup...p.text`) returned by
`requests.post`; `hasSession` tells whether `AOC_SESSION_COOKIE` is set. -/
def submitModel (day : Nat) (part : String) (answer : JVal) (hasSession : Bool)
    (responses : List String) (doc : JVal) : Except Err SubmitOut :=
  match answer with
  | jNull => .error .invalidNone   -- `if answer is None: raise ValueError(...)`
  | _ =>
    match cget doc ["cached_submissions", part, pyStr answer] jNull with
    | none => .error .attrError
    | some cached =>
      if truthy cached then
        -- already submitted: log the cached classification and return
        .ok { result := none, netCalls := 0, sleeps := [], printed := [],
              doc := doc, browserEvents := [], cachedEcho := some cached }
      else if !hasSession then .error .cookieNotSet
      else
        match responses with
        | [] => .error .noResponse
        | body1 :: rest1 =>
          match classify body1 with
          | .correct => submitFinish day part answer doc "correct" body1 1 []
          | .wrong => submitFinish day part answer doc "wrong" body1 1 []
          | .wrongLevel => submitAbort doc "failed" 1 [] [BEv.answerPage]
          | .unexpected => submitAbort doc "failed" 1 [] []
          | .pending =>
            -- first pending response: parse the wait time, sleep, retry once
            match searchWait body1.data with
            | none => .error .attrError   -- WAIT_RE.search(...) returned None
            | some (m, s) =>
              let w := 60 * m + s + 1
              match rest1 with
              | [] => .error .noResponse
              | body2 :: _ => submitSecond day part answer doc w body2

/-! ## Store lemmas -/

lemma olookup_oinsert_self (l : List (String × JVal)) (k : String) (v : JVal) :
    olookup (oinsert l k v) k = some v := by
  induction l with
  | nil => simp [oinsert, olookup]
  | cons p l ih =>
    obtain ⟨k', w⟩ := p
    by_cases h : k' = k
    · subst h; simp [oinsert, olookup]
    · simp [oinsert, olookup, h, ih]

lemma cget_after_cset :
    ∀ (ks : List String) (d v d' dflt : JVal), ks ≠ [] →
      cset d ks v = some d' → cget d' ks dflt = some v := by
  intro ks
  induction ks with
  | nil => intro d v d' dflt h _; exact absurd rfl h
  | cons k rest ih =>
    intro d v d' dflt _ hset
    cases rest with
    | nil =>
      cases d with
      | jObj l =>
        simp only [cset] at hset
        cases hset
        simp [cget, olookup_oinsert_self]
      | jNull => simp [cset] at hset
      | jStr s => simp [cset] at hset
      | jInt n => simp [cset] at hset
    | cons k2 rs =>
      cases d with
      | jObj l =>
        simp only [cset] at hset
        cases hl : olookup l k with
        | some w =>
          simp only [hl] at hset
          cases hc : cset w (k2 :: rs) v with
          | none => simp [hc] at hset
          | some w2 =>
            simp only [hc, Option.map_some'] at hset
            cases hset
            simp only [cget, olookup_oinsert_self, Option.getD_some]
            exact ih w v w2 dflt (by simp) hc
        | none =>
          simp only [hl] at hset
          cases hc : cset (jObj []) (k2 :: rs) v with
          | none => simp [hc] at hset
          | some w2 =>
            simp only [hc, Option.map_some'] at hset
            cases hset
            simp only [cget, olookup_oinsert_self, Option.getD_some]
            exact ih (jObj []) v w2 dflt (by simp) hc
      | jNull => simp [cset] at hset
      | jStr s => simp [cset] at hset
      | jInt n => simp [cset] at hset

/-! ## Claims about the store -/

/-- C6: Read-after-write on the store: for every non-empty key path and every
cache value `v`, within a single open session a successful `set(path, v)`
followed immediately by `get(path)` returns `v`; keys are string-coerced
identically by both operations. -/
theorem c6_set_then_get (st st' : CacheSt) (ks : List Key) (v dflt : JVal)
    (hne : ks ≠ []) (hset : csSet st ks v = .ok st') :
    csGet st' ks dflt = .ok v := by
  obtain ⟨data, dirty, fh⟩ := st
  cases data with
  | none => simp [csSet] at hset
  | some d =>
    simp only [csSet] at hset
    cases hc : cset d (ks.map keyStr) v with
    | none => simp [hc] at hset
    | some d2 =>
      simp only [hc] at hset
      cases hset
      have hmap : ks.map keyStr ≠ [] := by
        cases ks with
        | nil => exact absurd rfl hne
        | cons a b => simp
      simp only [csGet]
      rw [cget_after_cset (ks.map keyStr) d v d2 dflt hmap hc]

/-- Witness for C6 at a concrete two-level path with a string key and an
integer key. -/
theorem c6_set_then_get_witness :
    csGet ⟨some (jObj [("a", jObj [("3", jInt 7)])]), true, none⟩
        [Key.kStr "a", Key.kVal (jInt 3)] jNull = .ok (jInt 7) :=
  c6_set_then_get ⟨some (jObj []), false, none⟩ _ _ (jInt 7) jNull (by simp) rfl

/-- C4: `commit` on a closed store fails with the closed-store `ValueError`;
on an open store it is a no-op (state, file, warnings untouched) when not
dirty; when dirty it emits the stale-write warning exactly when the hash of
the on-disk bytes differs from the hash recorded at open time, then writes
the whole document through the JSON encoder regardless and clears the dirty
flag. -/
theorem c4_commit_contract (sha1 : ByteSeq → ByteSeq) (encode : JVal → ByteSeq)
    (st : CacheSt) (file : ByteSeq) :
    (st.data = none → commitC sha1 encode st file = .error .closedCommit)
    ∧ (∀ d, st.data = some d → st.dirty = false →
        commitC sha1 encode st file = .ok (st, file, []))
    ∧ (∀ d, st.data = some d → st.dirty = true →
        commitC sha1 encode st file =
          .ok (⟨some d, false, st.fileHash⟩, encode d,
               if some (sha1 file) = st.fileHash then [] else [CWarn.staleWrite])) := by
  obtain ⟨data, dirty, fh⟩ := st
  refine ⟨?_, ?_, ?_⟩
  · intro h
    simp only at h
    subst h
    rfl
  · intro d hd hdirty
    simp only at hd hdirty
    subst hd; subst hdirty
    rfl
  · intro d hd hdirty
    simp only at hd hdirty
    subst hd; subst hdirty
    by_cases hcond : some (sha1 file) = fh
    · simp [commitC, commitCore, hcond]
    · simp [commitC, commitCore, hcond]

/-- Witness for C4: committing a dirty open store whose on-disk bytes still
hash to the recorded value writes the encoded document with no warning. -/
theorem c4_commit_contract_witness :
    commitC (fun l => l) (fun _ => [9]) ⟨some (jObj []), true, some [1]⟩ [1]
      = .ok (⟨some (jObj []), false, some [1]⟩, [9], []) := by
  have h := (c4_commit_contract (fun l => l) (fun _ => [9])
      ⟨some (jObj []), true, some [1]⟩ [1]).2.2 (jObj []) rfl rfl
  simpa using h

/-- C5 counterexample: exiting the managed scope via an error on a store with
uncommitted changes emits no warning at all (the store is simply left open),
contradicting the claim that the discarded changes are surfaced via the
discarded-changes warning on scope exit. -/
theorem c5_error_exit_no_warning_cex :
    ¬ (∃ res : CacheSt × ByteSeq × List CWarn,
        exitC (fun l => l) (fun _ => ([] : ByteSeq)) true
            ⟨some (jObj [("k", jInt 1)]), true, some [3]⟩ [3] = .ok res
          ∧ CWarn.uncommittedLost ∈ res.2.2) := by
  rintro ⟨res, h, hm⟩
  have he : exitC (fun l => l) (fun _ => ([] : ByteSeq)) true
      ⟨some (jObj [("k", jInt 1)]), true, some [3]⟩ [3]
      = .ok (⟨some (jObj [("k", jInt 1)]), true, some [3]⟩, [3], []) := rfl
  rw [he] at h
  cases h
  simp at hm

/-- C5 (amended): on clean scope exit the changes are committed
automatically (writing the encoded document when dirty, with the stale-write
warning exactly on a hash mismatch) and the store is closed with no
discarded-changes warning; on scope exit via an error nothing happens at all:
no commit, no close, no warning — the store stays open and the
discarded-changes warning only surfaces when the store is later closed
without committing. -/
theorem c5_scoped_acquisition (sha1 : ByteSeq → ByteSeq) (encode : JVal → ByteSeq)
    (st : CacheSt) (d : JVal) (file : ByteSeq) (hd : st.data = some d) :
    (st.dirty = true →
      exitC sha1 encode false st file
        = .ok (⟨none, false, st.fileHash⟩, encode d,
               if some (sha1 file) = st.fileHash then [] else [CWarn.staleWrite]))
    ∧ (st.dirty = false →
      exitC sha1 encode false st file = .ok (⟨none, false, st.fileHash⟩, file, []))
    ∧ exitC sha1 encode true st file = .ok (st, file, [])
    ∧ (st.dirty = true →
      closeC sha1 encode false st file
        = .ok (⟨none, true, st.fileHash⟩, file, [CWarn.uncommittedLost])) := by
  obtain ⟨data, dirty, fh⟩ := st
  simp only at hd
  subst hd
  refine ⟨?_, ?_, rfl, ?_⟩
  · intro hdirty
    simp only at hdirty
    subst hdirty
    by_cases hcond : some (sha1 file) = fh
    · simp [exitC, closeC, commitCore, hcond]
    · simp [exitC, closeC, commitCore, hcond]
  · intro hdirty
    simp only at hdirty
    subst hdirty
    rfl
  · intro hdirty
    simp only at hdirty
    subst hdirty
    rfl

/-- Witness for C5 (amended): a clean scope exit on a dirty store whose file
is unchanged on disk commits the document and closes the store silently. -/
theorem c5_scoped_acquisition_witness :
    exitC (fun l => l) (fun _ => [7]) false ⟨some (jObj []), true, some [2]⟩ [2]
      = .ok (⟨none, false, some [2]⟩, [7], []) := by
  have h := (c5_scoped_acquisition (fun l => l) (fun _ => [7])
      ⟨some (jObj []), true, some [2]⟩ (jObj []) [2] rfl).1 rfl
  simpa using h

/-- C10: if the managed block raises, `__exit__` performs no action at all —
the store stays open with its uncommitted changes and no warning; because
instances are process-wide singletons per path, requesting the store for that
path again yields the same still-open instance, on which `open` fails with
the already-open error, until an explicit `close` makes `open` succeed
again. -/
theorem c10_error_exit_singleton (sha1 : ByteSeq → ByteSeq) (encode : JVal → ByteSeq)
    (decode : ByteSeq → Option JVal) (st : CacheSt) (d d2 : JVal)
    (file file2 file3 : ByteSeq) (reg : List (String × CacheSt)) (path : String)
    (hd : st.data = some d) (hreg : alookup reg path = some st)
    (hdec : decode file3 = some d2) :
    exitC sha1 encode true st file = .ok (st, file, [])
    ∧ getInstance reg path initCacheSt = (st, reg)
    ∧ openC sha1 decode st file2 = .error .alreadyOpen
    ∧ openC sha1 decode ⟨none, st.dirty, st.fileHash⟩ file3
        = .ok ⟨some d2, st.dirty, some (sha1 file3)⟩ := by
  refine ⟨rfl, ?_, ?_, ?_⟩
  · simp [getInstance, hreg]
  · simp [openC, hd]
  · simp [openC, hdec]

/-- Witness for C10 at a concrete open dirty store registered for path "p". -/
theorem c10_error_exit_singleton_witness :
    exitC (fun l => l) (fun _ => [0]) true ⟨some (jObj []), true, some [5]⟩ [5]
        = .ok (⟨some (jObj []), true, some [5]⟩, [5], [])
    ∧ getInstance [("p", ⟨some (jObj []), true, some [5]⟩)] "p" initCacheSt
        = (⟨some (jObj []), true, some [5]⟩, [("p", ⟨some (jObj []), true, some [5]⟩)])
    ∧ openC (fun l => l) (fun _ => some jNull) ⟨some (jObj []), true, some [5]⟩ [6]
        = .error .alreadyOpen
    ∧ openC (fun l => l) (fun _ => some jNull)
          ⟨none, (⟨some (jObj []), true, some [5]⟩ : CacheSt).dirty,
           (⟨some (jObj []), true, some [5]⟩ : CacheSt).fileHash⟩ [7]
        = .ok ⟨some jNull, (⟨some (jObj []), true, some [5]⟩ : CacheSt).dirty,
               some ((fun l => l) [7])⟩ :=
  c10_error_exit_singleton (fun l => l) (fun _ => [0]) (fun _ => some jNull)
    ⟨some (jObj []), true, some [5]⟩ (jObj []) jNull [5] [6] [7]
    [("p", ⟨some (jObj []), true, some [5]⟩)] "p" rfl rfl rfl

/-! ## C1: fingerprint and cache key -/

/-- C1: the staleness fingerprint is
`sha1(sha1(input) || sha1(solution module bytes))` and `run` keys the answer
cache by it: a first run on an empty cache invokes the solution module and
stores both answers under the fingerprint; a second run with identical input
text and identical module bytes does not re-invoke the module and serves the
answers from the `cached_answers` record; changing the input or the module
bytes yields a different fingerprint (given that sha1 is collision-free at
the inputs involved, stated pointwise, and that digests have a fixed length)
and therefore a cache miss, so the module is invoked again. -/
theorem c1_fingerprint_cache (sha1 : ByteSeq → ByteSeq) (hex : ByteSeq → String)
    (i s i2 s2 : ByteSeq) (a1 a2 b1 b2 c1 c2 : JVal)
    (hcf : sha1 (sha1 i2 ++ sha1 s2) = sha1 (sha1 i ++ sha1 s) →
           sha1 i2 ++ sha1 s2 = sha1 i ++ sha1 s)
    (hlen : (sha1 i2).length = (sha1 i).length)
    (hcfI : sha1 i2 = sha1 i → i2 = i)
    (hcfS : sha1 s2 = sha1 s → s2 = s)
    (hne : ¬ (i2 = i ∧ s2 = s))
    (hhex : puzzle_hash sha1 i2 s2 ≠ puzzle_hash sha1 i s →
            hex (puzzle_hash sha1 i2 s2) ≠ hex (puzzle_hash sha1 i s)) :
    puzzle_hash sha1 i s = sha1 (sha1 i ++ sha1 s)
    ∧ runModel sha1 hex i s a1 a2 false false (jObj [])
        = .ok { invoked := true, answerOne := a1, answerTwo := a2,
                status1 := jStr "not submitted", status2 := jStr "not submitted",
                doc := cachedAnswersDoc (hex (puzzle_hash sha1 i s)) a1 a2,
                submits := none }
    ∧ runModel sha1 hex i s b1 b2 false false
          (cachedAnswersDoc (hex (puzzle_hash sha1 i s)) a1 a2)
        = .ok { invoked := false, answerOne := a1, answerTwo := a2,
                status1 := jStr "not submitted", status2 := jStr "not submitted",
                doc := cachedAnswersDoc (hex (puzzle_hash sha1 i s)) a1 a2,
                submits := none }
    ∧ puzzle_hash sha1 i2 s2 ≠ puzzle_hash sha1 i s
    ∧ ∃ r : RunOut,
        runModel sha1 hex i2 s2 c1 c2 false false
            (cachedAnswersDoc (hex (puzzle_hash sha1 i s)) a1 a2) = .ok r
        ∧ r.invoked = true ∧ r.answerOne = c1 ∧ r.answerTwo = c2 := by
  have h1 : ("cached_answers" : String) ≠ "cached_submissions" := by decide
  have h2 : ("answer_one" : String) ≠ "answer_two" := by decide
  have hfpne : puzzle_hash sha1 i2 s2 ≠ puzzle_hash sha1 i s := by
    intro heq
    have h := hcf heq
    have hp := List.append_inj h hlen
    exact hne ⟨hcfI hp.1, hcfS hp.2⟩
  refine ⟨rfl, ?_, ?_, hfpne, ?_⟩
  · simp [runModel, cget, cset, olookup, oinsert, truthy, cachedAnswersDoc, answersRec, h1, h2]
  · simp [runModel, cget, cset, olookup, oinsert, truthy, cachedAnswersDoc, answersRec, h1, h2]
  · have hfp : hex (puzzle_hash sha1 i s) ≠ hex (puzzle_hash sha1 i2 s2) :=
      Ne.symm (hhex hfpne)
    simp [runModel, cget, cset, olookup, oinsert, truthy, cachedAnswersDoc, answersRec,
          h1, h2, hfp]

/-- Witness for C1: with the identity digest (collision-free on the inputs
used) and a head-based hex rendering, the changed input misses the cache and
re-invokes the module. -/
theorem c1_fingerprint_cache_witness :
    puzzle_hash (fun l => l) ([2] : ByteSeq) [7] ≠ puzzle_hash (fun l => l) [1] [7]
    ∧ ∃ r : RunOut,
        runModel (fun l => l) (fun l => toString (l.headD 0)) [2] [7]
            (jInt 8) (jInt 9) false false
            (cachedAnswersDoc ((fun l : ByteSeq => toString (l.headD 0))
                (puzzle_hash (fun l => l) [1] [7])) (jInt 3) (jInt 4)) = .ok r
        ∧ r.invoked = true ∧ r.answerOne = jInt 8 ∧ r.answerTwo = jInt 9 :=
  (c1_fingerprint_cache (fun l => l) (fun l => toString (l.headD 0))
    [1] [7] [2] [7] (jInt 3) (jInt 4) (jInt 5) (jInt 6) (jInt 8) (jInt 9)
    (fun h => h) rfl (fun h => h) (fun h => h) (by decide) (fun _ => by decide)).2.2.2

/-! ## Claims about the submission protocol -/

/-- C2: submission idempotence — when the cached-submissions record already
classifies this (part, stringified value) pair as "correct" or "wrong",
`submit` performs no network call, leaves the cache untouched, and reports
the cached classification (logged) instead of re-sending. -/
theorem c2_submission_idempotent (day : Nat) (part : String) (answer : JVal)
    (hasSession : Bool) (responses : List String) (doc : JVal) (r : JVal)
    (hnn : answer ≠ jNull)
    (hc : cget doc ["cached_submissions", part, pyStr answer] jNull = some r)
    (hr : r = jStr "correct" ∨ r = jStr "wrong") :
    submitModel day part answer hasSession responses doc
      = .ok { result := none, netCalls := 0, sleeps := [], printed := [],
              doc := doc, browserEvents := [], cachedEcho := some r } := by
  have htr : truthy r = true := by
    rcases hr with h | h <;> subst h <;> rfl
  cases answer with
  | jNull => exact absurd rfl hnn
  | jStr s => simp [submitModel, hc, htr]
  | jInt n => simp [submitModel, hc, htr]
  | jObj l => simp [submitModel, hc, htr]

/-- Witness for C2: the pair ("1", "5") is cached as "correct"; submitting it
again is a no-op with zero network calls. -/
theorem c2_submission_idempotent_witness :
    submitModel 4 "1" (jStr "5") true []
        (jObj [("cached_submissions", jObj [("1", jObj [("5", jStr "correct")])])])
      = .ok { result := none, netCalls := 0, sleeps := [], printed := [],
              doc := jObj [("cached_submissions", jObj [("1", jObj [("5", jStr "correct")])])],
              browserEvents := [], cachedEcho := some (jStr "correct") } :=
  c2_submission_idempotent 4 "1" (jStr "5") true []
    (jObj [("cached_submissions", jObj [("1", jObj [("5", jStr "correct")])])])
    (jStr "correct") (fun h => JVal.noConfusion h) rfl (Or.inl rfl)

/-- C3 counterexample: a first response body that is exactly
"You have 1m 30s left to wait" does not start with
"You gave an answer too recently", so the code classifies it as an unexpected
response: one single network call, result "failed", no sleep, no retry —
not the 2 calls / ~91 s sleep / correct outcome the claim asserts. -/
theorem c3_pending_retry_cex :
    ¬ (∃ out : SubmitOut,
        submitModel 4 "1" (jStr "5") true
            ["You have 1m 30s left to wait", "That\x27s the right answer"] (jObj [])
          = .ok out
        ∧ out.netCalls = 2 ∧ out.sleeps = [91] ∧ out.result = some "correct") := by
  rintro ⟨out, h, hcalls, _, _⟩
  have he : submitModel 4 "1" (jStr "5") true
      ["You have 1m 30s left to wait", "That\x27s the right answer"] (jObj [])
      = .ok { result := some "failed", netCalls := 1, sleeps := [], printed := [],
              doc := jObj [], browserEvents := [], cachedEcho := none } := rfl
  rw [he] at h
  injection h with h2
  subst h2
  exact absurd hcalls (by decide)

/-- C3 (amended): when the first attempt receives a response that starts with
"You gave an answer too recently" and contains the wait phrase
"You have 1m 30s left to wait", and the next attempt receives a
correct-prefix response, the protocol sleeps exactly 91 seconds
(60·1 + 30 + 1) between the two attempts, performs exactly 2 network calls,
and reports the result as correct; when the second response is pending again
it stops after those 2 calls with result "pending", no further retry and no
cache write. -/
theorem c3_pending_retry (day : Nat) (part : String) (a : String)
    (mbody cbody : String)
    (hm : classify mbody = .pending)
    (hw : searchWait mbody.data = some (1, 30))
    (hc : classify cbody = .correct) :
    submitModel day part (jStr a) true [mbody, cbody] (jObj [])
      = .ok { result := some "correct", netCalls := 2, sleeps := [91],
              printed := [OutLine.submitted (jStr a) day part, OutLine.answerIs "correct"]
                ++ (if a = "wrong" then [OutLine.responseBody cbody] else []),
              doc := jObj [("cached_submissions", jObj [(part, jObj [(a, jStr "correct")])])],
              browserEvents := if part = "1" then [BEv.puzzlePage] else [],
              cachedEcho := none }
    ∧ submitModel day part (jStr a) true [mbody, mbody] (jObj [])
      = .ok { result := some "pending", netCalls := 2, sleeps := [91], printed := [],
              doc := jObj [], browserEvents := [], cachedEcho := none } := by
  constructor
  · simp [submitModel, submitSecond, submitFinish, submitAbort, hm, hw, hc,
          cget, cset, olookup, oinsert, truthy, pyStr]
  · simp [submitModel, submitSecond, submitAbort, hm, hw,
          cget, olookup, truthy, pyStr]

/-- Witness for C3 (amended): the realistic rate-limit body followed by a
correct response sleeps 91 s and ends correct; twice the rate-limit body ends
pending after exactly two calls. -/
theorem c3_pending_retry_witness :
    submitModel 4 "1" (jStr "42") true
        ["You gave an answer too recently; you have to wait after submitting an answer before trying again.  You have 1m 30s left to wait.",
         "That\x27s the right answer!  You are one gold star closer."] (jObj [])
      = .ok { result := some "correct", netCalls := 2, sleeps := [91],
              printed := [OutLine.submitted (jStr "42") 4 "1", OutLine.answerIs "correct"]
                ++ (if "42" = "wrong" then
                      [OutLine.responseBody "That\x27s the right answer!  You are one gold star closer."]
                    else []),
              doc := jObj [("cached_submissions", jObj [("1", jObj [("42", jStr "correct")])])],
              browserEvents := if "1" = "1" then [BEv.puzzlePage] else [],
              cachedEcho := none }
    ∧ submitModel 4 "1" (jStr "42") true
        ["You gave an answer too recently; you have to wait after submitting an answer before trying again.  You have 1m 30s left to wait.",
         "You gave an answer too recently; you have to wait after submitting an answer before trying again.  You have 1m 30s left to wait."] (jObj [])
      = .ok { result := some "pending", netCalls := 2, sleeps := [91], printed := [],
              doc := jObj [], browserEvents := [], cachedEcho := none } :=
  c3_pending_retry 4 "1" "42"
    "You gave an answer too recently; you have to wait after submitting an answer before trying again.  You have 1m 30s left to wait."
    "That\x27s the right answer!  You are one gold star closer." rfl rfl rfl

/-- C7: every `submit` invocation writes to the `cached_submissions` record
only when the classification result is "correct" or "wrong"; any call that
returns with another outcome (cached hit, pending after the exhausted retry,
failed) leaves the cache document unchanged. -/
theorem c7_cache_write_only_terminal (day : Nat) (part : String) (answer : JVal)
    (hasSession : Bool) (responses : List String) (doc : JVal) (out : SubmitOut)
    (h : submitModel day part answer hasSession responses doc = .ok out)
    (hco : out.result ≠ some "correct") (hwr : out.result ≠ some "wrong") :
    out.doc = doc := by
  cases answer
  case jNull => simp [submitModel] at h
  all_goals
    simp only [submitModel, submitSecond, submitFinish, submitAbort] at h
  all_goals
    repeat' split at h
  all_goals
    first
    | exact Except.noConfusion h
    | (injection h with h2; subst h2;
       first
       | rfl
       | exact absurd rfl hco
       | exact absurd rfl hwr)

/-- Witness for C7: a pending-then-pending exchange ends with result
"pending" and an unchanged cache document. -/
theorem c7_cache_write_only_terminal_witness :
    ({ result := some "pending", netCalls := 2, sleeps := [91], printed := [],
       doc := jObj [("x", jInt 1)], browserEvents := [],
       cachedEcho := none } : SubmitOut).doc = jObj [("x", jInt 1)] :=
  c7_cache_write_only_terminal 4 "1" (jStr "9") true
    ["You gave an answer too recently.  You have 1m 30s left to wait.",
     "You gave an answer too recently.  You have 1m 30s left to wait."]
    (jObj [("x", jInt 1)]) _ rfl (by decide) (by decide)

/-- C8 counterexample: an empty-string answer is not rejected by the entry
guard — the call proceeds past the guard and the cache lookup all the way to
a network call, instead of failing with the invalid-input `ValueError`. -/
theorem c8_empty_not_guarded_cex :
    submitModel 4 "1" (jStr "") true ["mystery response"] (jObj [])
      ≠ .error .invalidNone
    ∧ (∃ out : SubmitOut,
        submitModel 4 "1" (jStr "") true ["mystery response"] (jObj []) = .ok out
        ∧ out.netCalls = 1) := by
  have he : submitModel 4 "1" (jStr "") true ["mystery response"] (jObj [])
      = .ok { result := some "failed", netCalls := 1, sleeps := [], printed := [],
              doc := jObj [], browserEvents := [], cachedEcho := none } := rfl
  exact ⟨by rw [he]; simp, ⟨_, he, rfl⟩⟩

/-- C8 (amended): the entry guard of `submit` rejects only a null (`None`)
answer, raising the invalid-input `ValueError` before any cache lookup or
network call (the outcome is independent of the cache document and of the
network oracle); an empty-string answer is not rejected. -/
theorem c8_null_guard (day : Nat) (part : String) (hasSession : Bool)
    (responses : List String) (doc : JVal) :
    submitModel day part jNull hasSession responses doc = .error .invalidNone := rfl

/-- C9: once the submission flow reaches the outcome-printing stage, the
extra "Response: ..." line is printed if and only if the submitted answer
value itself is the string "wrong" — the guard compares the answer, not the
classification result, so a wrong classification alone never prints the
response body. -/
theorem c9_response_guard (day : Nat) (part : String) (answer : JVal)
    (hasSession : Bool) (responses : List String) (doc : JVal) (out : SubmitOut)
    (h : submitModel day part answer hasSession responses doc = .ok out)
    (hp : out.printed ≠ []) :
    out.printed.any isRespLine = true ↔ answer = jStr "wrong" := by
  cases answer
  case jNull => simp [submitModel] at h
  all_goals
    simp only [submitModel, submitSecond, submitFinish, submitAbort] at h
  all_goals
    repeat' split at h
  all_goals
    first
    | exact Except.noConfusion h
    | (injection h with h2; subst h2; simp_all [isRespLine])

/-- Witness for C9: a "wrong"-classified submission of the numeric answer 5
prints the outcome but not the response body. -/
theorem c9_response_guard_witness :
    ¬ (({ result := some "wrong", netCalls := 1, sleeps := [],
          printed := [OutLine.submitted (jInt 5) 4 "1", OutLine.answerIs "wrong"],
          doc := jObj [("cached_submissions", jObj [("1", jObj [("5", jStr "wrong")])])],
          browserEvents := [], cachedEcho := none } : SubmitOut).printed.any isRespLine
        = true) := by
  intro hresp
  have h := (c9_response_guard 4 "1" (jInt 5) true
      ["That\x27s not the right answer; your answer is too high."] (jObj [])
      { result := some "wrong", netCalls := 1, sleeps := [],
        printed := [OutLine.submitted (jInt 5) 4 "1", OutLine.answerIs "wrong"],
        doc := jObj [("cached_submissions", jObj [("1", jObj [("5", jStr "wrong")])])],
        browserEvents := [], cachedEcho := none }
      rfl (by simp)).mp hresp
  exact JVal.noConfusion h

end Aoc2020
